import Mathlib

/-!
Shallow embedding of the auth-lib orchestration layer
(src/src/application/AuthService.ts) and its collaborator ports.

The orchestrator is generic over the user type; here it is also generic over
an opaque claim-value type V (the TS side uses Record String unknown), an
abstract cache-state type C and an abstract collaborator-error type E.
Asynchronous collaborator calls that may reject are embedded as pure
functions returning Except; each use case additionally returns the ordered
trace of collaborator and adapter calls it made, and state passing is
explicit for the cache.
-/

namespace AuthLib

/-- Error codes of the AuthError class (src/src/domain/errors.ts); the error
message defaults to the code, so the code is the whole observable content. -/
inductive AuthErrorCode where
  | USER_EXISTS
  | INVALID_CREDENTIALS
  | TOKEN_INVALID
  | TOKEN_BLACKLISTED
deriving DecidableEq, Repr

/-- An error escaping an operation: an AuthError raised by the orchestrator
itself, or an arbitrary failure of one of the injected collaborators. -/
inductive AppErr (E : Type) where
  | auth (code : AuthErrorCode)
  | ext (err : E)
deriving DecidableEq, Repr

/-- A JS object over string keys with values of type V, as an association
list in property order. -/
abbrev JsObj (V : Type) := List (String × V)

/-- Property assignment on a JS object: an existing key keeps its position and
gets the new value, a new key is appended. This is the semantics of listing a
duplicate key later in an object literal, and of each step of object spread. -/
def jsSet {V : Type} : JsObj V → String → V → JsObj V
  | [], k, v => [(k, v)]
  | p :: rest, k, v => if p.1 == k then (k, v) :: rest else p :: jsSet rest k v

/-- Property read on a JS object. -/
def jsGet {V : Type} : JsObj V → String → Option V
  | [], _ => none
  | p :: rest, k => if p.1 == k then some p.2 else jsGet rest k

/-- Object spread: every property of extra is assigned onto base in order, so
a key present in both ends with the value from extra. This embeds the literal
with base written first and three dots extra after it. -/
def jsSpread {V : Type} (base extra : JsObj V) : JsObj V :=
  extra.foldl (fun acc p => jsSet acc p.1 p.2) base

/-- JS truthiness of the value a cache read returns: null or undefined and the
empty string are falsy, every other string is truthy. -/
def jsTruthy : Option String → Bool
  | none => false
  | some s => s != ""

/-- The String(x) coercion applied to an optional claim value: a missing
property reads as undefined and String coerces that to "undefined"; a present
opaque value is rendered by the caller-fixed rendering function. -/
def jsStringOf {V : Type} (toStr : V → String) : Option V → String
  | some v => toStr v
  | none => "undefined"

/-- Result of a successful token verification (src/src/domain/ports/
TokenManager.ts): the claims object, an optional token identifier and an
optional expiration in seconds since epoch. -/
structure VerifiedToken (V : Type) where
  claims : JsObj V
  jti : Option String
  exp : Option Int

/-- Registration input (src/src/application/types.ts). The optional free-form
attribute object is passed through to the user builder untouched. -/
structure RegisterInput (V : Type) where
  email : String
  password : String
  attributes : Option (JsObj V) := none

/-- Login input (src/src/application/types.ts). -/
structure LoginInput where
  email : String
  password : String

/-- Validation outcome (src/src/application/types.ts). The claims and user
fields of the TS object may be absent altogether; when present, the user field
may itself hold null, hence the nested Option. -/
structure ValidationResult (U V : Type) where
  valid : Bool
  claims : Option (JsObj V)
  user : Option (Option U)

/-- Modelled from the spec: the port file src/src/domain/ports/CacheStore.ts
is not among the staged sources; section 6 of the spec fixes the revocation
cache interface as get(key) returning a value or absent, set(key, value,
ttlSeconds?) and del(key). The cache is embedded as a state type C with pure
transitions; set and del return the successor state, and absent TTL means no
expiration. -/
structure CacheOps (C E : Type) where
  get : C → String → Except (AppErr E) (Option String)
  set : C → String → String → Option Int → Except (AppErr E) C
  del : C → String → Except (AppErr E) C

/-- The dependency record of AuthService (AuthDeps in
src/src/application/AuthService.ts): the user store, the password hasher
(its port file is likewise absent from the staged sources and its two
operations are taken from section 6 of the spec), the token manager, the
optional revocation cache, and the caller-supplied user adapters. The issue
operation receives the claims and the optional expiresInSeconds option, none
standing for an omitted options argument. The two extra fields ofStr and
toStr embed how JS holds a string inside the opaque claim-value type and how
String(x) renders such a value; with V := String both are the identity. -/
structure AuthDeps (U V C E : Type) where
  findByEmail : String → Except (AppErr E) (Option U)
  findById : String → Except (AppErr E) (Option U)
  create : U → Except (AppErr E) U
  update : U → Except (AppErr E) U
  hash : String → Except (AppErr E) String
  compare : String → String → Except (AppErr E) Bool
  issue : JsObj V → Option Int → Except (AppErr E) String
  verify : String → Except (AppErr E) (VerifiedToken V)
  cache : Option (CacheOps C E)
  buildUser : RegisterInput V → String → U
  getUserId : U → String
  getPasswordHash : U → String
  buildClaims : Option (U → JsObj V)
  ofStr : String → V
  toStr : V → String

/-- One collaborator or adapter call made by a use case, with its arguments,
in the order the source performs them. -/
inductive Eff (U V : Type) where
  | findByEmail (email : String)
  | findById (id : String)
  | create (user : U)
  | hash (password : String)
  | compare (password hashed : String)
  | buildUser
  | issue (claims : JsObj V) (expiresInSeconds : Option Int)
  | verify (token : String)
  | cacheGet (key : String)
  | cacheSet (key value : String) (ttl : Option Int)

variable {U V C E : Type}

/-- Embedding of AuthService.register: existence check by email, then hash,
build and create. A found user raises USER_EXISTS before any further call;
collaborator failures propagate unchanged. -/
def register (d : AuthDeps U V C E) (input : RegisterInput V) :
    Except (AppErr E) U × List (Eff U V) :=
  match d.findByEmail input.email with
  | .error e => (.error e, [.findByEmail input.email])
  | .ok (some _) => (.error (.auth .USER_EXISTS), [.findByEmail input.email])
  | .ok none =>
    match d.hash input.password with
    | .error e => (.error e, [.findByEmail input.email, .hash input.password])
    | .ok hashed =>
      let entity := d.buildUser input hashed
      match d.create entity with
      | .error e =>
        (.error e, [.findByEmail input.email, .hash input.password,
          .buildUser, .create entity])
      | .ok created =>
        (.ok created, [.findByEmail input.email, .hash input.password,
          .buildUser, .create entity])

/-- The claims object login builds: the literal writes the sub property first
and then spreads the claims-builder result (or the empty object) over it, so
a sub key supplied by the builder is assigned after the mandatory one. -/
def loginClaims (d : AuthDeps U V C E) (user : U) : JsObj V :=
  jsSpread (jsSet [] "sub" (d.ofStr (d.getUserId user)))
    (match d.buildClaims with
     | some f => f user
     | none => [])

/-- Embedding of AuthService.login: lookup by email, password comparison,
claims construction and token issue. The issue call passes the claims alone;
the options argument is omitted, embedded as none. -/
def login (d : AuthDeps U V C E) (input : LoginInput) :
    Except (AppErr E) (U × String) × List (Eff U V) :=
  match d.findByEmail input.email with
  | .error e => (.error e, [.findByEmail input.email])
  | .ok none => (.error (.auth .INVALID_CREDENTIALS), [.findByEmail input.email])
  | .ok (some user) =>
    match d.compare input.password (d.getPasswordHash user) with
    | .error e =>
      (.error e, [.findByEmail input.email,
        .compare input.password (d.getPasswordHash user)])
    | .ok false =>
      (.error (.auth .INVALID_CREDENTIALS), [.findByEmail input.email,
        .compare input.password (d.getPasswordHash user)])
    | .ok true =>
      let claims := loginClaims d user
      match d.issue claims none with
      | .error e =>
        (.error e, [.findByEmail input.email,
          .compare input.password (d.getPasswordHash user), .issue claims none])
      | .ok token =>
        (.ok (user, token), [.findByEmail input.email,
          .compare input.password (d.getPasswordHash user), .issue claims none])

/-- Embedding of AuthService.blacklistKey: the fixed prefix followed by the
token identifier, falling back to the raw token string when jti is absent. -/
def blacklistKey (jti : Option String) (token : String) : String :=
  "auth:blacklist:" ++ jti.getD token

/-- Embedding of AuthService.computeTtlSeconds. Date.now() is passed in as
nowMs, milliseconds since epoch. The source guard is written with JS
truthiness, so it returns undefined when exp is absent and also when exp is
the number 0; Math.floor of the integer-valued quotient is floor division. -/
def computeTtlSeconds (exp : Option Int) (nowMs : Int) : Option Int :=
  match exp with
  | none => none
  | some e =>
    if e = 0 then none
    else
      let ms : Int := e * 1000 - nowMs
      let s : Int := Int.fdiv ms 1000
      some (if 0 < s then s else 1)

/-- The guarded blacklist block inside AuthService.validate: nothing happens
without a configured cache; with one, the marker under the derived key is
read and a truthy stored value raises the internal TOKEN_BLACKLISTED
signal. -/
def blacklistCheck (d : AuthDeps U V C E) (vt : VerifiedToken V) (token : String)
    (c : C) : Except (AppErr E) Unit × List (Eff U V) :=
  match d.cache with
  | none => (.ok (), [])
  | some co =>
    let key := blacklistKey vt.jti token
    match co.get c key with
    | .error e => (.error e, [.cacheGet key])
    | .ok b =>
      if jsTruthy b then (.error (.auth .TOKEN_BLACKLISTED), [.cacheGet key])
      else (.ok (), [.cacheGet key])

/-- Body of the try block of AuthService.validate: verify the token, run the
blacklist block, then look up the user by the sub claim coerced to a string.
The cache state is only read here. -/
def validateBody (d : AuthDeps U V C E) (token : String) (c : C) :
    Except (AppErr E) (ValidationResult U V) × List (Eff U V) :=
  match d.verify token with
  | .error e => (.error e, [.verify token])
  | .ok vt =>
    match blacklistCheck d vt token c with
    | (.error e, tr) => (.error e, .verify token :: tr)
    | (.ok (), tr) =>
      let subKey := jsStringOf d.toStr (jsGet vt.claims "sub")
      match d.findById subKey with
      | .error e => (.error e, .verify token :: tr ++ [.findById subKey])
      | .ok user =>
        (.ok ⟨true, some vt.claims, some user⟩,
          .verify token :: tr ++ [.findById subKey])

/-- Embedding of AuthService.validate: the catch-all around the body converts
every error, the internal TOKEN_BLACKLISTED signal included, into the uniform
object with valid false and no claims or user fields. -/
def validate (d : AuthDeps U V C E) (token : String) (c : C) :
    ValidationResult U V × List (Eff U V) :=
  match validateBody d token c with
  | (.ok r, tr) => (r, tr)
  | (.error _, tr) => (⟨false, none, none⟩, tr)

/-- Embedding of AuthService.logout: without a configured cache it returns at
once; otherwise it verifies the token (failure propagating), derives the
blacklist key and the TTL, and writes the marker value "1". -/
def logout (d : AuthDeps U V C E) (nowMs : Int) (token : String) (c : C) :
    Except (AppErr E) Unit × C × List (Eff U V) :=
  match d.cache with
  | none => (.ok (), c, [])
  | some co =>
    match d.verify token with
    | .error e => (.error e, c, [.verify token])
    | .ok vt =>
      let key := blacklistKey vt.jti token
      let ttl := computeTtlSeconds vt.exp nowMs
      match co.set c key "1" ttl with
      | .error e => (.error e, c, [.verify token, .cacheSet key "1" ttl])
      | .ok c2 => (.ok (), c2, [.verify token, .cacheSet key "1" ttl])

/-- A cache collaborator with get-after-set map semantics over an association
list state, the TTL being accepted and not consulted within an instant; this
is the shape of the in-memory cache the test suite injects. -/
def listCacheOps (E : Type) : CacheOps (List (String × String)) E where
  get := fun c k => .ok (jsGet c k)
  set := fun c k v _ => .ok (jsSet c k v)
  del := fun c k => .ok (c.filter fun p => p.1 != k)

/-- Reading back a key just assigned yields the assigned value. -/
theorem jsGet_jsSet_self {V : Type} (m : JsObj V) (k : String) (v : V) :
    jsGet (jsSet m k v) k = some v := by
  induction m with
  | nil => simp [jsSet, jsGet]
  | cons p rest ih =>
    by_cases h : p.1 == k
    · simp [jsSet, h, jsGet]
    · simp [jsSet, h, jsGet, ih]

/-- A concrete cacheless configuration over string users and string claim
values: the store knows the single user "user-1" with password hash "h1",
comparison always succeeds, the claims builder supplies its own sub entry
"intruder", and verification yields a token for the deleted subject "nobody"
on the token "ghost" and for "user-1" on every other token. -/
def subDemoDeps : AuthDeps String String Unit Unit where
  findByEmail := fun _ => .ok (some "user-1")
  findById := fun i => if i == "user-1" then .ok (some "user-1") else .ok none
  create := fun u => .ok u
  update := fun u => .ok u
  hash := fun p => .ok ("h:" ++ p)
  compare := fun _ _ => .ok true
  issue := fun _ _ => .ok "tok"
  verify := fun t =>
    if t == "ghost" then .ok ⟨[("sub", "nobody")], none, none⟩
    else .ok ⟨[("sub", "user-1")], none, none⟩
  cache := none
  buildUser := fun _ h => h
  getUserId := fun u => u
  getPasswordHash := fun _ => "h1"
  buildClaims := some (fun _ => [("sub", "intruder")])
  ofStr := fun s => s
  toStr := fun s => s

/-- A concrete configuration with the map cache: verification yields an
expiration of 0 on the token "t0", fails on the token "bad", and otherwise
yields identifier "j1" with expiration 100 seconds since epoch. -/
def ttlDemoDeps : AuthDeps String String (List (String × String)) Unit where
  findByEmail := fun _ => .ok none
  findById := fun _ => .ok none
  create := fun u => .ok u
  update := fun u => .ok u
  hash := fun p => .ok ("h:" ++ p)
  compare := fun _ _ => .ok false
  issue := fun _ _ => .ok "tok"
  verify := fun t =>
    if t == "t0" then .ok ⟨[("sub", "u")], none, some 0⟩
    else if t == "bad" then .error (.auth .TOKEN_INVALID)
    else .ok ⟨[("sub", "u")], some "j1", some 100⟩
  cache := some (listCacheOps Unit)
  buildUser := fun _ h => h
  getUserId := fun u => u
  getPasswordHash := fun _ => "h1"
  buildClaims := none
  ofStr := fun s => s
  toStr := fun s => s

/-- C1: at the concrete configuration subDemoDeps, whose claims builder
returns an object with a sub entry "intruder" while the user id is "user-1",
a successful login passes claims to issue whose sub entry is "intruder" and
not the user id: the object literal writes sub first and spreads the builder
result after it, so the caller-supplied sub overwrites the mandatory subject
rather than being overwritten by it. -/
theorem login_sub_overwritten :
    login subDemoDeps ⟨"a@a.com", "p"⟩ =
      (.ok ("user-1", "tok"),
        [.findByEmail "a@a.com", .compare "p" "h1",
         .issue [("sub", "intruder")] none]) ∧
    jsGet [("sub", "intruder")] "sub" = some "intruder" ∧
    subDemoDeps.getUserId "user-1" = "user-1" ∧
    (some "intruder" : Option String) ≠ some "user-1" :=
  ⟨rfl, rfl, rfl, by decide⟩

/-- C5: when the user store already holds a user for the given email, register
returns the USER_EXISTS error and its whole effect trace is that one
existence read: the hasher, the user builder and the creation write are never
reached, so the store is left untouched. -/
theorem register_user_exists (d : AuthDeps U V C E) (input : RegisterInput V)
    (u : U) (h : d.findByEmail input.email = .ok (some u)) :
    register d input = (.error (.auth .USER_EXISTS), [.findByEmail input.email]) := by
  simp [register, h]

/-- Witness for C5 at the configuration subDemoDeps, whose store finds
"user-1" for every email. -/
theorem register_user_exists_witness :
    register subDemoDeps ⟨"a@a.com", "p", none⟩ =
      (.error (.auth .USER_EXISTS), [.findByEmail "a@a.com"]) :=
  register_user_exists subDemoDeps ⟨"a@a.com", "p", none⟩ "user-1" rfl

/-- C6: login fails with the INVALID_CREDENTIALS error both when no user
exists for the email and when a user exists but the password comparison
returns false; the two branches return the very same error value, so the
caller cannot tell the causes apart. -/
theorem login_enumeration_resistant (d : AuthDeps U V C E) (input : LoginInput) :
    (d.findByEmail input.email = .ok none →
      (login d input).1 = .error (.auth .INVALID_CREDENTIALS)) ∧
    ∀ u, d.findByEmail input.email = .ok (some u) →
      d.compare input.password (d.getPasswordHash u) = .ok false →
      (login d input).1 = .error (.auth .INVALID_CREDENTIALS) := by
  constructor
  · intro h
    simp [login, h]
  · intro u hu hcmp
    simp [login, hu, hcmp]

/-- C7: with a cache configured, a failing verification makes logout surface
exactly that error, with the cache state returned unchanged and no cache
write in the effect trace. -/
theorem logout_propagates_verify_failure (d : AuthDeps U V C E) (nowMs : Int)
    (token : String) (c : C) (co : CacheOps C E) (e : AppErr E)
    (hc : d.cache = some co) (hv : d.verify token = .error e) :
    logout d nowMs token c = (.error e, c, [.verify token]) := by
  simp [logout, hc, hv]

/-- Witness for C7 at the configuration ttlDemoDeps, whose verification
fails on the token "bad". -/
theorem logout_propagates_verify_failure_witness :
    logout ttlDemoDeps 0 "bad" [] =
      (.error (.auth .TOKEN_INVALID), [], [.verify "bad"]) :=
  logout_propagates_verify_failure ttlDemoDeps 0 "bad" [] (listCacheOps Unit)
    (.auth .TOKEN_INVALID) rfl rfl

/-- C2 counterexample: at the configuration ttlDemoDeps and time 0, logging
out the token "t0", whose verified result carries the expiration 0 — an
expiration that exists and lies at or before now, for which the claim demands
the clamped TTL 1 — writes the marker with no TTL at all, because the source
guard tests the expiration with JS truthiness and 0 is falsy. -/
theorem logout_ttl_absent_at_exp_zero :
    ttlDemoDeps.verify "t0" = .ok ⟨[("sub", "u")], none, some 0⟩ ∧
    (logout ttlDemoDeps 0 "t0" []).2.2 =
      [.verify "t0", .cacheSet "auth:blacklist:t0" "1" none] ∧
    (none : Option Int) ≠ some 1 :=
  ⟨rfl, rfl, by decide⟩

/-- C2 amended: with a cache configured and verification succeeding, logout
writes the marker with exactly the TTL computeTtlSeconds yields; whenever the
verified expiration e exists and is nonzero, that TTL is present, equals the
floor of the remaining seconds when that floor is positive and is clamped to
exactly 1 otherwise, and is always positive; when the expiration is absent —
or is the JS-falsy value 0 — the marker is written with no TTL. -/
theorem logout_ttl_clamped (d : AuthDeps U V C E) (co : CacheOps C E)
    (nowMs : Int) (token : String) (vt : VerifiedToken V) (c : C)
    (hc : d.cache = some co) (hv : d.verify token = .ok vt) :
    (logout d nowMs token c).2.2 =
      [.verify token,
       .cacheSet (blacklistKey vt.jti token) "1" (computeTtlSeconds vt.exp nowMs)] ∧
    (∀ e : Int, vt.exp = some e → e ≠ 0 →
      computeTtlSeconds vt.exp nowMs =
        some
          (if 0 < Int.fdiv (e * 1000 - nowMs) 1000 then
            Int.fdiv (e * 1000 - nowMs) 1000
          else 1) ∧
      ∀ t : Int, computeTtlSeconds vt.exp nowMs = some t → 0 < t) ∧
    ((vt.exp = none ∨ vt.exp = some 0) → computeTtlSeconds vt.exp nowMs = none) := by
  refine ⟨?_, ?_, ?_⟩
  · rcases hs : co.set c (blacklistKey vt.jti token) "1"
        (computeTtlSeconds vt.exp nowMs) with e2 | c2 <;>
      simp [logout, hc, hv, hs]
  · intro e he hne
    constructor
    · simp [computeTtlSeconds, he, hne]
    · intro t ht
      have h1 : computeTtlSeconds vt.exp nowMs =
          some
            (if 0 < Int.fdiv (e * 1000 - nowMs) 1000 then
              Int.fdiv (e * 1000 - nowMs) 1000
            else 1) := by
        simp [computeTtlSeconds, he, hne]
      rw [h1] at ht
      injection ht with ht
      subst ht
      by_cases hpos : 0 < Int.fdiv (e * 1000 - nowMs) 1000
      · rw [if_pos hpos]
        exact hpos
      · rw [if_neg hpos]
        exact Int.zero_lt_one
  · rintro (h | h) <;> simp [computeTtlSeconds, h]

/-- Witness for C2 at the configuration ttlDemoDeps and time 0: the token
"t1" verifies with identifier "j1" and nonzero expiration 100, and the marker
is written with the positive TTL 100. -/
theorem logout_ttl_clamped_witness :
    (logout ttlDemoDeps 0 "t1" []).2.2 =
      [.verify "t1",
       .cacheSet (blacklistKey (some "j1") "t1") "1"
         (computeTtlSeconds (some 100) 0)] ∧
    computeTtlSeconds (some 100) 0 = some 100 :=
  ⟨(logout_ttl_clamped ttlDemoDeps (listCacheOps Unit) 0 "t1"
      ⟨[("sub", "u")], some "j1", some 100⟩ [] rfl rfl).1,
    by decide⟩

/-- C3: whatever the collaborators do, validate surfaces no error: whenever
the body of its try block fails — a failing verification, a failing cache
read, a marker hit raising the internal TOKEN_BLACKLISTED signal, or a
failing user lookup — validate returns exactly the object with valid false
and no claims and no user; every outcome of validate is either that uniform
failure object or a success object with valid true; and in particular a
truthy revocation marker is swallowed into the uniform failure object. -/
theorem validate_uniform_failure (d : AuthDeps U V C E) (token : String) (c : C) :
    (∀ e tr, validateBody d token c = (.error e, tr) →
      validate d token c = (⟨false, none, none⟩, tr)) ∧
    ((validate d token c).1 = ⟨false, none, none⟩ ∨
      ∃ cl u, (validate d token c).1 = ⟨true, some cl, some u⟩) ∧
    (∀ co vt b, d.cache = some co → d.verify token = .ok vt →
      co.get c (blacklistKey vt.jti token) = .ok b → jsTruthy b = true →
      (validate d token c).1 = ⟨false, none, none⟩) := by
  refine ⟨?_, ?_, ?_⟩
  · intro e tr h
    simp [validate, h]
  · rcases hv : d.verify token with e | vt
    · left
      simp [validate, validateBody, hv]
    · rcases hbc : blacklistCheck d vt token c with ⟨bres, tr⟩
      rcases bres with e | u0
      · left
        simp [validate, validateBody, hv, hbc]
      · rcases hfi : d.findById (jsStringOf d.toStr (jsGet vt.claims "sub"))
            with e2 | usr
        · left
          simp [validate, validateBody, hv, hbc, hfi]
        · right
          exact ⟨vt.claims, usr, by simp [validate, validateBody, hv, hbc, hfi]⟩
  · intro co vt b hc hv hg ht
    have hbc : blacklistCheck d vt token c =
        (.error (.auth .TOKEN_BLACKLISTED),
          [.cacheGet (blacklistKey vt.jti token)]) := by
      simp [blacklistCheck, hc, hg, ht]
    simp [validate, validateBody, hv, hbc]

/-- C4: with the get-after-set map cache configured and a verification that
succeeds on the token (verification is a pure function of the token here, so
the two calls agree by construction), validate run on the cache state logout
leaves behind returns the uniform failure object: both operations derive the
same key from the verified identifier, or the raw token when it is absent,
and validate finds the truthy marker "1" logout wrote there. -/
theorem logout_then_validate_invalid (d : AuthDeps U V (List (String × String)) E)
    (nowMs : Int) (token : String) (c : List (String × String))
    (vt : VerifiedToken V)
    (hc : d.cache = some (listCacheOps E))
    (hv : d.verify token = .ok vt) :
    (validate d token (logout d nowMs token c).2.1).1 = ⟨false, none, none⟩ := by
  have htr : jsTruthy (some "1") = true := by decide
  have hlo : (logout d nowMs token c).2.1 =
      jsSet c (blacklistKey vt.jti token) "1" := by
    simp [logout, hc, hv, listCacheOps]
  have hbc : blacklistCheck d vt token (jsSet c (blacklistKey vt.jti token) "1") =
      (.error (.auth .TOKEN_BLACKLISTED),
        [.cacheGet (blacklistKey vt.jti token)]) := by
    simp [blacklistCheck, hc, listCacheOps, jsGet_jsSet_self, htr]
  rw [hlo]
  simp [validate, validateBody, hv, hbc]

/-- Witness for C4 at the configuration ttlDemoDeps: logging out the
verifiable token "t1" from the empty cache and validating it against the
resulting cache state yields the uniform failure object. -/
theorem logout_then_validate_invalid_witness :
    (validate ttlDemoDeps "t1" (logout ttlDemoDeps 0 "t1" []).2.1).1 =
      ⟨false, none, none⟩ :=
  logout_then_validate_invalid ttlDemoDeps 0 "t1" []
    ⟨[("sub", "u")], some "j1", some 100⟩ rfl rfl

/-- C8: without a configured cache, logout returns at once with an empty
effect trace — no verification, no write — and the cache state untouched;
and validate on a token that still verifies, for a subject whose lookup
succeeds, returns valid true with the claims and the user, its trace showing
no cache read at all. -/
theorem logout_noop_without_cache (d : AuthDeps U V C E) (nowMs : Int)
    (token : String) (c : C) (hc : d.cache = none) :
    logout d nowMs token c = (.ok (), c, []) ∧
    ∀ vt u, d.verify token = .ok vt →
      d.findById (jsStringOf d.toStr (jsGet vt.claims "sub")) = .ok u →
      validate d token c =
        (⟨true, some vt.claims, some u⟩,
         [.verify token,
          .findById (jsStringOf d.toStr (jsGet vt.claims "sub"))]) := by
  constructor
  · simp [logout, hc]
  · intro vt u hv hf
    have hbc : blacklistCheck d vt token c = (.ok (), []) := by
      simp [blacklistCheck, hc]
    simp [validate, validateBody, hv, hbc, hf]

/-- Witness for C8 at the cacheless configuration subDemoDeps. -/
theorem logout_noop_without_cache_witness :
    logout subDemoDeps 0 "tk" () = (.ok (), (), []) :=
  (logout_noop_without_cache subDemoDeps 0 "tk" () rfl).1

/-- C9: a token that verifies, hits no revocation marker (every configured
cache reads back nothing under the derived key) and whose subject the store
no longer contains still validates: the result has valid true, carries the
verified claims, and holds a present user field containing null. -/
theorem validate_deleted_user_valid (d : AuthDeps U V C E) (token : String)
    (c : C) (vt : VerifiedToken V)
    (hv : d.verify token = .ok vt)
    (hb : ∀ co, d.cache = some co →
      co.get c (blacklistKey vt.jti token) = .ok none)
    (hu : d.findById (jsStringOf d.toStr (jsGet vt.claims "sub")) = .ok none) :
    (validate d token c).1 = ⟨true, some vt.claims, some none⟩ := by
  rcases hcache : d.cache with _ | co
  · have hbc : blacklistCheck d vt token c = (.ok (), []) := by
      simp [blacklistCheck, hcache]
    simp [validate, validateBody, hv, hbc, hu]
  · have hg := hb co hcache
    have hbc : blacklistCheck d vt token c =
        (.ok (), [.cacheGet (blacklistKey vt.jti token)]) := by
      simp [blacklistCheck, hcache, hg, jsTruthy]
    simp [validate, validateBody, hv, hbc, hu]

/-- Witness for C9 at the configuration subDemoDeps: the token "ghost"
verifies with subject "nobody", which the store does not contain. -/
theorem validate_deleted_user_valid_witness :
    (validate subDemoDeps "ghost" ()).1 =
      ⟨true, some [("sub", "nobody")], some none⟩ :=
  validate_deleted_user_valid subDemoDeps "ghost" ()
    ⟨[("sub", "nobody")], none, none⟩ rfl
    (by intro co h; simp [subDemoDeps] at h) rfl

/-- C10: a successful login calls issue exactly once, with the claims object
it built and with the options argument omitted — embedded as none — so the
orchestrator supplies no expiresInSeconds and any expiration comes from the
token collaborator itself, as the full effect trace shows. -/
theorem login_issue_without_options (d : AuthDeps U V C E) (input : LoginInput)
    (u : U) (tok : String)
    (hf : d.findByEmail input.email = .ok (some u))
    (hcmp : d.compare input.password (d.getPasswordHash u) = .ok true)
    (hiss : d.issue (loginClaims d u) none = .ok tok) :
    login d input =
      (.ok (u, tok),
        [.findByEmail input.email,
         .compare input.password (d.getPasswordHash u),
         .issue (loginClaims d u) none]) := by
  simp [login, hf, hcmp, hiss]

/-- Witness for C10 at the configuration subDemoDeps. -/
theorem login_issue_without_options_witness :
    login subDemoDeps ⟨"b@b.com", "p"⟩ =
      (.ok ("user-1", "tok"),
        [.findByEmail "b@b.com", .compare "p" "h1",
         .issue (loginClaims subDemoDeps "user-1") none]) :=
  login_issue_without_options subDemoDeps ⟨"b@b.com", "p"⟩ "user-1" "tok"
    rfl rfl rfl

end AuthLib
